import Mathlib

/-!
Verification of the timestamp option builder of PyGMT
(src/pygmt/src/timestamp.py).

The function `timestamp` validates its parameters, assembles the value of
the U option of the GMT "plot" module, and forwards one call through a
session handle.  We embed it as a pure function from the parameters and
the active GMT version to the list of collaborator events it performs
(the figure preprocessing call and the session command execution) paired
with the error it raises, if any.
-/

namespace PyGMT

/-- A release version, as compared by `packaging.version.Version` on
plain `major.minor.patch` release strings: lexicographic on the numeric
components. -/
structure Version where
  major : Nat
  minor : Nat
  patch : Nat
deriving DecidableEq, Repr

/-- Strict semantic-version ordering, `Version(a) < Version(b)`. -/
def Version.lt (a b : Version) : Bool :=
  (a.major < b.major) ||
    ((a.major == b.major) &&
      ((a.minor < b.minor) || ((a.minor == b.minor) && (a.patch < b.patch))))

/-- Non-strict semantic-version ordering, `Version(a) <= Version(b)`. -/
def Version.le (a b : Version) : Bool :=
  Version.lt a b || (a == b)

/-- The shape of the `offset` argument: either a single string (the
non-iterable case of `is_nonstr_iter`), or a non-string iterable whose
elements are given here after the string conversion `f"{item}"`
performed by the source. -/
inductive Offset where
  | single (s : String)
  | tuple (xs : List String)
deriving DecidableEq, Repr

/-- The two `GMTInvalidInput` raise sites of the source, distinguished by
their message: the version gate (GMT>=6.5.0 required for `text`) and the
64-character length bound on `text`. -/
inductive GMTInvalidInput where
  | textRequiresGMT650
  | textTooLong
deriving DecidableEq, Repr

/-- A collaborator operation performed by `timestamp`: the figure
preprocessing call `self._preprocess()` or the session command execution
`lib.call_module(module, args)` with the option dictionary
`{T: kwT, U: kwU}` and the configuration dictionary
`{FONT_LOGO: fontLogo, FORMAT_TIME_STAMP: formatTimeStamp}`. -/
inductive Event where
  | preprocess
  | callModule (module : String) (kwT : Bool) (kwU : String)
      (fontLogo : String) (formatTimeStamp : String)
deriving DecidableEq, Repr

/-- Embedding of `pygmt.src.timestamp.timestamp`.  `gmtVersion` is the
parsed `__gmt_version__`; `text` and `label` are the optional string
parameters (after string conversion); the remaining parameters are the
strings of the source signature.  Returns the list of collaborator
events performed, in order, together with the raised error, if any. -/
def timestamp (gmtVersion : Version) (text : Option String)
    (label : Option String) (justification : String) (offset : Offset)
    (font : String) (timefmt : String) :
    List Event × Option GMTInvalidInput :=
  -- self._preprocess()
  let events := [Event.preprocess]
  -- kwdict = {"T": True, "U": ""}
  let u := ""
  -- if label is not None: kwdict["U"] += f"{label}"
  let u := match label with
    | none => u
    | some l => u ++ l
  -- kwdict["U"] += f"+j{justification}"
  let u := u ++ "+j" ++ justification
  -- offset branch
  let u := match offset with
    | Offset.tuple xs =>
        -- is_nonstr_iter(offset): join the items with "/"
        u ++ ("+o" ++ String.intercalate "/" xs)
    | Offset.single s =>
        if (!s.data.contains (Char.ofNat 47)) && Version.le gmtVersion ⟨6, 4, 0⟩ then
          -- single offset does not work in GMT <= 6.4.0: duplicate it
          u ++ ("+o" ++ s ++ "/" ++ s)
        else
          u ++ ("+o" ++ s)
  -- text branch: version gate, length check, then append +t; a raise is
  -- an early return, otherwise the session call at the end is performed
  match text with
  | none =>
      (events ++ [Event.callModule "plot" true u font timefmt], none)
  | some t =>
      if Version.lt gmtVersion ⟨6, 5, 0⟩ then
        (events, some GMTInvalidInput.textRequiresGMT650)
      else if 64 < t.length then
        (events, some GMTInvalidInput.textTooLong)
      else
        let u := u ++ ("+t" ++ t)
        (events ++ [Event.callModule "plot" true u font timefmt], none)

/-- The label part of the U value: the label verbatim when supplied,
empty otherwise. -/
def labelFragment (label : Option String) : String :=
  match label with
  | none => ""
  | some l => l

/-- The offset part of the U value, as emitted by the offset branch of
the source. -/
def offsetFragment (gmtVersion : Version) (offset : Offset) : String :=
  match offset with
  | Offset.tuple xs => "+o" ++ String.intercalate "/" xs
  | Offset.single s =>
      if (!s.data.contains (Char.ofNat 47)) && Version.le gmtVersion ⟨6, 4, 0⟩ then
        "+o" ++ s ++ "/" ++ s
      else
        "+o" ++ s

/-- The text part of the U value: `+t` plus the text when supplied,
empty otherwise. -/
def textFragment (text : Option String) : String :=
  match text with
  | none => ""
  | some t => "+t" ++ t

/-- The U value emitted by a run of `timestamp`, when a session call
was performed. -/
def emittedU (r : List Event × Option GMTInvalidInput) : Option String :=
  (r.1.filterMap fun e => match e with
    | Event.callModule _ _ u _ _ => some u
    | _ => none).head?

end PyGMT

open PyGMT

/-- With `text = None` the run always succeeds: one preprocessing call,
then one session call of module "plot" with `T = true` and the U value
assembled as label, justification, offset. -/
theorem timestamp_none_eq (ver : Version) (label : Option String)
    (j : String) (offset : Offset) (font timefmt : String) :
    timestamp ver none label j offset font timefmt =
      ([Event.preprocess,
        Event.callModule "plot" true
          (labelFragment label ++ "+j" ++ j ++ offsetFragment ver offset)
          font timefmt], none) := by
  cases label <;> cases offset <;>
    simp only [timestamp, labelFragment, offsetFragment]
  all_goals (repeat' split)
  all_goals rfl

/-- With `text` supplied, the run first checks the version gate, then the
length bound, and otherwise appends `+t` plus the text to the U value and
performs the session call. -/
theorem timestamp_some_eq (ver : Version) (t : String)
    (label : Option String) (j : String) (offset : Offset)
    (font timefmt : String) :
    timestamp ver (some t) label j offset font timefmt =
      if Version.lt ver ⟨6, 5, 0⟩ then
        ([Event.preprocess], some GMTInvalidInput.textRequiresGMT650)
      else if 64 < t.length then
        ([Event.preprocess], some GMTInvalidInput.textTooLong)
      else
        ([Event.preprocess,
          Event.callModule "plot" true
            (labelFragment label ++ "+j" ++ j ++ offsetFragment ver offset
              ++ textFragment (some t)) font timefmt], none) := by
  cases label <;> cases offset <;>
    simp only [timestamp, labelFragment, offsetFragment, textFragment]
  all_goals (repeat' split)
  all_goals rfl

/-- Reading the U value off a run that performed the session call. -/
theorem emittedU_call (u font timefmt : String)
    (e : Option GMTInvalidInput) :
    emittedU ([Event.preprocess,
      Event.callModule "plot" true u font timefmt], e) = some u := rfl

/-- Claim C1: when text is supplied and the engine version is strictly
below 6.5.0 in semantic-version order, the call fails with the
unsupported-feature error and performs no session command; when the
engine version is 6.5.0 or higher and the text has at most 64
characters, no version error is raised and the emitted U value ends
with +t followed by the text. -/
theorem C1_text_version_gate (ver : Version) (t : String)
    (label : Option String) (j : String) (offset : Offset)
    (font timefmt : String) :
    (Version.lt ver ⟨6, 5, 0⟩ = true →
      timestamp ver (some t) label j offset font timefmt =
        ([Event.preprocess], some GMTInvalidInput.textRequiresGMT650)) ∧
    (Version.lt ver ⟨6, 5, 0⟩ = false → t.length ≤ 64 →
      (timestamp ver (some t) label j offset font timefmt).2 = none ∧
      ∃ p, emittedU (timestamp ver (some t) label j offset font timefmt) =
        some (p ++ ("+t" ++ t))) := by
  constructor
  · intro hlt
    rw [timestamp_some_eq, if_pos hlt]
  · intro hlt hlen
    rw [timestamp_some_eq, if_neg (by simp [hlt]), if_neg (by omega)]
    exact ⟨rfl,
      ⟨labelFragment label ++ "+j" ++ j ++ offsetFragment ver offset, rfl⟩⟩

/-- Witness for C1: text hello on versions 6.4.0 and 6.5.0. -/
theorem C1_text_version_gate_witness :
    (timestamp ⟨6, 4, 0⟩ (some "hello") none "BL"
        (Offset.tuple ["-54p", "-54p"]) "Helvetica,black" "%Y" =
      ([Event.preprocess], some GMTInvalidInput.textRequiresGMT650)) ∧
    ((timestamp ⟨6, 5, 0⟩ (some "hello") none "BL"
        (Offset.tuple ["-54p", "-54p"]) "Helvetica,black" "%Y").2 = none ∧
      ∃ p, emittedU (timestamp ⟨6, 5, 0⟩ (some "hello") none "BL"
          (Offset.tuple ["-54p", "-54p"]) "Helvetica,black" "%Y") =
        some (p ++ ("+t" ++ "hello"))) := by
  constructor
  · exact (C1_text_version_gate ⟨6, 4, 0⟩ "hello" none "BL"
      (Offset.tuple ["-54p", "-54p"]) "Helvetica,black" "%Y").1 (by decide)
  · exact (C1_text_version_gate ⟨6, 5, 0⟩ "hello" none "BL"
      (Offset.tuple ["-54p", "-54p"]) "Helvetica,black" "%Y").2
      (by decide) (by decide)

/-- Claim C2: on an engine version of at least 6.5.0, a supplied text of
length at most 64 succeeds, and one of length 65 or more fails with the
value-too-long error. -/
theorem C2_text_length_bound (ver : Version) (t : String)
    (label : Option String) (j : String) (offset : Offset)
    (font timefmt : String)
    (hver : Version.lt ver ⟨6, 5, 0⟩ = false) :
    (t.length ≤ 64 →
      (timestamp ver (some t) label j offset font timefmt).2 = none) ∧
    (65 ≤ t.length →
      timestamp ver (some t) label j offset font timefmt =
        ([Event.preprocess], some GMTInvalidInput.textTooLong)) := by
  constructor
  · intro hlen
    rw [timestamp_some_eq, if_neg (by simp [hver]), if_neg (by omega)]
  · intro hlen
    rw [timestamp_some_eq, if_neg (by simp [hver]), if_pos (by omega)]

/-- Witness for C2: a 64-character text succeeds and a 65-character text
fails, at version 6.5.0. -/
theorem C2_text_length_bound_witness :
    ((timestamp ⟨6, 5, 0⟩
        (some "aaaaaaaaaaaaaaaaaaaaaaaaaaaaaaaaaaaaaaaaaaaaaaaaaaaaaaaaaaaaaaaa")
        none "BL" (Offset.tuple ["-54p", "-54p"]) "Helvetica,black"
        "%Y").2 = none) ∧
    (timestamp ⟨6, 5, 0⟩
        (some "bbbbbbbbbbbbbbbbbbbbbbbbbbbbbbbbbbbbbbbbbbbbbbbbbbbbbbbbbbbbbbbbb")
        none "BL" (Offset.tuple ["-54p", "-54p"]) "Helvetica,black" "%Y" =
      ([Event.preprocess], some GMTInvalidInput.textTooLong)) := by
  constructor
  · exact (C2_text_length_bound ⟨6, 5, 0⟩
      "aaaaaaaaaaaaaaaaaaaaaaaaaaaaaaaaaaaaaaaaaaaaaaaaaaaaaaaaaaaaaaaa"
      none "BL" (Offset.tuple ["-54p", "-54p"]) "Helvetica,black" "%Y"
      (by decide)).1 (by decide)
  · exact (C2_text_length_bound ⟨6, 5, 0⟩
      "bbbbbbbbbbbbbbbbbbbbbbbbbbbbbbbbbbbbbbbbbbbbbbbbbbbbbbbbbbbbbbbbb"
      none "BL" (Offset.tuple ["-54p", "-54p"]) "Helvetica,black" "%Y"
      (by decide)).2 (by decide)

/-- Claim C3: a single-string offset without a slash is duplicated to
+o offset/offset when the engine version is at most 6.4.0, and emitted
unchanged as +o offset otherwise. -/
theorem C3_single_offset_version_quirk (ver : Version) (s : String)
    (label : Option String) (j font timefmt : String)
    (hs : s.data.contains (Char.ofNat 47) = false) :
    (Version.le ver ⟨6, 4, 0⟩ = true →
      emittedU (timestamp ver none label j (Offset.single s) font timefmt) =
        some (labelFragment label ++ "+j" ++ j ++ ("+o" ++ s ++ "/" ++ s))) ∧
    (Version.le ver ⟨6, 4, 0⟩ = false →
      emittedU (timestamp ver none label j (Offset.single s) font timefmt) =
        some (labelFragment label ++ "+j" ++ j ++ ("+o" ++ s))) := by
  have hmem : Char.ofNat 47 ∉ s.data := by simpa using hs
  constructor
  · intro hle
    rw [timestamp_none_eq, emittedU_call]
    simp [offsetFragment, hmem, hle]
  · intro hle
    rw [timestamp_none_eq, emittedU_call]
    simp [offsetFragment, hs, hle]

/-- Witness for C3: offset 10p duplicated at version 6.4.0 and kept
as-is at version 6.5.0. -/
theorem C3_single_offset_version_quirk_witness :
    (emittedU (timestamp ⟨6, 4, 0⟩ none none "BL" (Offset.single "10p")
        "Helvetica,black" "%Y") =
      some (labelFragment none ++ "+j" ++ "BL" ++ ("+o" ++ "10p" ++ "/" ++ "10p"))) ∧
    (emittedU (timestamp ⟨6, 5, 0⟩ none none "BL" (Offset.single "10p")
        "Helvetica,black" "%Y") =
      some (labelFragment none ++ "+j" ++ "BL" ++ ("+o" ++ "10p"))) := by
  constructor
  · exact (C3_single_offset_version_quirk ⟨6, 4, 0⟩ "10p" none "BL"
      "Helvetica,black" "%Y" (by decide)).1 (by decide)
  · exact (C3_single_offset_version_quirk ⟨6, 5, 0⟩ "10p" none "BL"
      "Helvetica,black" "%Y" (by decide)).2 (by decide)

/-- Claim C4: a two-element offset sequence (x, y) is emitted as
+o x/y for every engine version. -/
theorem C4_pair_offset (ver : Version) (x y : String)
    (label : Option String) (j font timefmt : String) :
    emittedU (timestamp ver none label j (Offset.tuple [x, y]) font timefmt) =
      some (labelFragment label ++ "+j" ++ j ++ ("+o" ++ (x ++ "/" ++ y))) := by
  rw [timestamp_none_eq, emittedU_call]
  rfl

/-- Claim C5: every session call passes module plot with the boolean T
flag set and a U value assembled in the fixed order label, +j plus
justification, offset fragment, optional +t plus text; in particular a
call with label Powered by PyGMT and defaults otherwise emits a U value
that starts with Powered by PyGMT immediately followed by +jBL. -/
theorem C5_assembly_order (ver : Version) (text label : Option String)
    (j : String) (offset : Offset) (font timefmt : String) :
    ((timestamp ver text label j offset font timefmt).2 = none →
      timestamp ver text label j offset font timefmt =
        ([Event.preprocess,
          Event.callModule "plot" true
            (labelFragment label ++ "+j" ++ j ++ offsetFragment ver offset
              ++ textFragment text) font timefmt], none)) ∧
    (∃ rest, emittedU (timestamp ver none (some "Powered by PyGMT") "BL"
        (Offset.tuple ["-54p", "-54p"]) font timefmt) =
      some ("Powered by PyGMT" ++ ("+jBL" ++ rest))) := by
  constructor
  · intro hok
    cases text with
    | none =>
        rw [timestamp_none_eq]
        simp [textFragment, String.append_empty]
    | some t =>
        rw [timestamp_some_eq] at hok ⊢
        by_cases hlt : Version.lt ver ⟨6, 5, 0⟩ = true
        · rw [if_pos hlt] at hok; simp at hok
        · rw [if_neg hlt] at hok ⊢
          by_cases hlen : 64 < t.length
          · rw [if_pos hlen] at hok; simp at hok
          · rw [if_neg hlen]
  · exact ⟨"+o-54p/-54p", by rw [timestamp_none_eq, emittedU_call]; rfl⟩

/-- Witness for C5: a successful call at version 6.5.0 with a label, a
text and the default offset. -/
theorem C5_assembly_order_witness :
    timestamp ⟨6, 5, 0⟩ (some "hi") (some "lab") "BL"
        (Offset.tuple ["-54p", "-54p"]) "Helvetica,black" "%Y" =
      ([Event.preprocess,
        Event.callModule "plot" true
          (labelFragment (some "lab") ++ "+j" ++ "BL"
            ++ offsetFragment ⟨6, 5, 0⟩ (Offset.tuple ["-54p", "-54p"])
            ++ textFragment (some "hi")) "Helvetica,black" "%Y"], none) :=
  (C5_assembly_order ⟨6, 5, 0⟩ (some "hi") (some "lab") "BL"
    (Offset.tuple ["-54p", "-54p"]) "Helvetica,black" "%Y").1 (by decide)

/-- Claim C6: the default call produces exactly the option values
T = true and U = +jBL followed by the duplicated default offset, the
configuration FONT_LOGO
Helvetica,black and FORMAT_TIME_STAMP with the default time format, and
the module name plot, for every engine version. -/
theorem C6_default_call (ver : Version) :
    timestamp ver none none "BL" (Offset.tuple ["-54p", "-54p"])
        "Helvetica,black" "%Y %b %d %H:%M:%S" =
      ([Event.preprocess,
        Event.callModule "plot" true "+jBL+o-54p/-54p"
          "Helvetica,black" "%Y %b %d %H:%M:%S"], none) := rfl

/-- Claim C7 counterexample: on a failing call, a collaborator operation
has already been invoked: the figure preprocessing call precedes the
validation, so the failing path is not free of collaborator
operations. -/
theorem C7_counterexample :
    ((timestamp ⟨6, 4, 0⟩ (some "hi") none "BL"
        (Offset.tuple ["-54p", "-54p"]) "Helvetica,black"
        "%Y %b %d %H:%M:%S").2).isSome = true ∧
    Event.preprocess ∈ (timestamp ⟨6, 4, 0⟩ (some "hi") none "BL"
        (Offset.tuple ["-54p", "-54p"]) "Helvetica,black"
        "%Y %b %d %H:%M:%S").1 := by
  decide

/-- Claim C7 as amended: on every failing call the session command
execution is not invoked: the event trace of a failing run is exactly
the figure preprocessing call, which precedes validation. -/
theorem C7_no_session_call_on_failure (ver : Version)
    (text label : Option String) (j : String) (offset : Offset)
    (font timefmt : String)
    (h : (timestamp ver text label j offset font timefmt).2.isSome = true) :
    (timestamp ver text label j offset font timefmt).1 =
      [Event.preprocess] := by
  cases text with
  | none => rw [timestamp_none_eq] at h; simp at h
  | some t =>
      rw [timestamp_some_eq] at h ⊢
      by_cases hlt : Version.lt ver ⟨6, 5, 0⟩ = true
      · rw [if_pos hlt]
      · rw [if_neg hlt] at h ⊢
        by_cases hlen : 64 < t.length
        · rw [if_pos hlen]
        · rw [if_neg hlen] at h; simp at h

/-- Witness for the amended C7: a failing call at version 6.4.0
performs the preprocessing call only. -/
theorem C7_no_session_call_on_failure_witness :
    (timestamp ⟨6, 4, 0⟩ (some "hey") none "BL" (Offset.single "10p")
      "Helvetica,black" "%Y").1 = [Event.preprocess] :=
  C7_no_session_call_on_failure ⟨6, 4, 0⟩ (some "hey") none "BL"
    (Offset.single "10p") "Helvetica,black" "%Y" (by decide)

/-- Claim C8: the justification string is not validated locally: the
error outcome of a call does not depend on the justification value, and
on success the U value contains +j immediately followed by the
justification verbatim, after the label fragment. -/
theorem C8_justification_not_validated (ver : Version)
    (text label : Option String) (j j2 : String) (offset : Offset)
    (font timefmt : String) :
    ((timestamp ver text label j offset font timefmt).2 =
      (timestamp ver text label j2 offset font timefmt).2) ∧
    ((timestamp ver text label j offset font timefmt).2 = none →
      ∃ rest, emittedU (timestamp ver text label j offset font timefmt) =
        some (labelFragment label ++ ("+j" ++ j) ++ rest)) := by
  constructor
  · cases text with
    | none => rw [timestamp_none_eq, timestamp_none_eq]
    | some t =>
        rw [timestamp_some_eq, timestamp_some_eq]
        by_cases hlt : Version.lt ver ⟨6, 5, 0⟩ = true
        · rw [if_pos hlt, if_pos hlt]
        · rw [if_neg hlt, if_neg hlt]
          by_cases hlen : 64 < t.length
          · rw [if_pos hlen, if_pos hlen]
          · rw [if_neg hlen, if_neg hlen]
  · intro hok
    cases text with
    | none =>
        rw [timestamp_none_eq, emittedU_call]
        refine ⟨offsetFragment ver offset, ?_⟩
        simp [String.append_assoc]
    | some t =>
        rw [timestamp_some_eq] at hok ⊢
        by_cases hlt : Version.lt ver ⟨6, 5, 0⟩ = true
        · rw [if_pos hlt] at hok; simp at hok
        · rw [if_neg hlt] at hok ⊢
          by_cases hlen : 64 < t.length
          · rw [if_pos hlen] at hok; simp at hok
          · rw [if_neg hlen, emittedU_call]
            refine ⟨offsetFragment ver offset ++ textFragment (some t), ?_⟩
            simp [String.append_assoc]

/-- Witness for C8: a malformed justification code ZZ causes no error
and appears verbatim after +j. -/
theorem C8_justification_not_validated_witness :
    ((timestamp ⟨6, 5, 0⟩ none none "ZZ" (Offset.tuple ["-54p", "-54p"])
        "Helvetica,black" "%Y").2 =
      (timestamp ⟨6, 5, 0⟩ none none "BL" (Offset.tuple ["-54p", "-54p"])
        "Helvetica,black" "%Y").2) ∧
    (∃ rest, emittedU (timestamp ⟨6, 5, 0⟩ none none "ZZ"
        (Offset.tuple ["-54p", "-54p"]) "Helvetica,black" "%Y") =
      some (labelFragment none ++ ("+j" ++ "ZZ") ++ rest)) := by
  have h := C8_justification_not_validated ⟨6, 5, 0⟩ none none "ZZ" "BL"
    (Offset.tuple ["-54p", "-54p"]) "Helvetica,black" "%Y"
  exact ⟨h.1, h.2 (by decide)⟩

/-- Claim C9: when text is supplied, the engine version is below 6.5.0
and the text is longer than 64 characters, the version check wins: the
call fails with the unsupported-feature error, not the too-long
error. -/
theorem C9_version_check_precedence (ver : Version) (t : String)
    (label : Option String) (j : String) (offset : Offset)
    (font timefmt : String)
    (hver : Version.lt ver ⟨6, 5, 0⟩ = true) (hlen : 64 < t.length) :
    timestamp ver (some t) label j offset font timefmt =
      ([Event.preprocess], some GMTInvalidInput.textRequiresGMT650) := by
  rw [timestamp_some_eq, if_pos hver]

/-- Witness for C9: a 65-character text at version 6.4.0 fails with the
version error. -/
theorem C9_version_check_precedence_witness :
    timestamp ⟨6, 4, 0⟩
        (some "bbbbbbbbbbbbbbbbbbbbbbbbbbbbbbbbbbbbbbbbbbbbbbbbbbbbbbbbbbbbbbbbb")
        none "BL" (Offset.tuple ["-54p", "-54p"]) "Helvetica,black" "%Y" =
      ([Event.preprocess], some GMTInvalidInput.textRequiresGMT650) :=
  C9_version_check_precedence ⟨6, 4, 0⟩
    "bbbbbbbbbbbbbbbbbbbbbbbbbbbbbbbbbbbbbbbbbbbbbbbbbbbbbbbbbbbbbbbbb"
    none "BL" (Offset.tuple ["-54p", "-54p"]) "Helvetica,black" "%Y"
    (by decide) (by decide)

/-- Claim C10: a non-string iterable offset of any length causes no
local error and is emitted as +o followed by its elements joined with
slashes; a three-element tuple gives +o1p/2p/3p and the empty tuple the
bare +o. -/
theorem C10_tuple_any_length (ver : Version) (xs : List String)
    (label : Option String) (j font timefmt : String) :
    ((timestamp ver none label j (Offset.tuple xs) font timefmt).2 = none ∧
      emittedU (timestamp ver none label j (Offset.tuple xs) font timefmt) =
        some (labelFragment label ++ "+j" ++ j
          ++ ("+o" ++ String.intercalate "/" xs))) ∧
    emittedU (timestamp ver none none "BL" (Offset.tuple ["1p", "2p", "3p"])
        font timefmt) = some "+jBL+o1p/2p/3p" ∧
    emittedU (timestamp ver none none "BL" (Offset.tuple [])
        font timefmt) = some "+jBL+o" := by
  refine ⟨⟨?_, ?_⟩, ?_, ?_⟩
  · rw [timestamp_none_eq]
  · rw [timestamp_none_eq, emittedU_call]; rfl
  · rw [timestamp_none_eq, emittedU_call]; rfl
  · rw [timestamp_none_eq, emittedU_call]; rfl
